import Mathlib

/-!
Shallow embedding of the incident-management core of `deco-cx/incidents`
(file `server/tools/incidents.ts`, schema in `server/schema.ts`).

Conventions of the embedding:
* JS `Date` timestamps are `Nat` (epoch milliseconds); `new Date()` is an
  explicit `now : Nat` parameter of each operation.
* Nullable SQLite columns (`commitments`, `affected_resources`, `timeline`)
  are `Option`-typed fields; `none` is SQL `NULL` / JS `null`.
* The drizzle table is a `List Incident` in insertion (rowid) order; an
  `INSERT` appends, an `UPDATE ... WHERE id = x` maps over the list, and a
  `SELECT ... WHERE id = x LIMIT 1` is `List.find?`.
* The request context (`env.DECO_CHAT_REQUEST_CONTEXT.ensureAuthenticated`)
  is an `Option User` parameter: `some u` is an authenticated caller,
  `none` an unauthenticated one.  The code derives `isAdmin = !!user`.
* A tool call is `Except ToolError result`; the zod input schema is checked
  before the `execute` body runs (the runtime parses the input first), and a
  failed call performs no mutation, so the store is only returned on `.ok`.
* drizzle-orm's select builder stores a single `config.where` slot and its
  `where()` method assigns to it, so a second `where()` call on the same
  builder replaces the first clause instead of conjoining it.  `SelectQuery`
  models exactly that.
-/

namespace Incidents

/-- Source: `IncidentStatus = z.enum(["INVESTIGATING","IDENTIFIED","MONITORING","RESOLVED"])`. -/
inductive IncidentStatus where
  | INVESTIGATING
  | IDENTIFIED
  | MONITORING
  | RESOLVED
deriving DecidableEq

/-- Source: `IncidentVisibility = z.enum(["public","private"])`; the source
string "private" is the constructor `priv` (`private` is a Lean keyword). -/
inductive IncidentVisibility where
  | public
  | priv
deriving DecidableEq

/-- Source: `SeverityLevel = z.enum(["Operational","Under Maintenance",
"Degraded Performance","Partial Outage","Major Outage"])`. -/
inductive SeverityLevel where
  | Operational
  | UnderMaintenance
  | DegradedPerformance
  | PartialOutage
  | MajorOutage
deriving DecidableEq

/-- Source: `AffectedResourceSchema = z.object({resource, severity})`. -/
structure AffectedResource where
  resource : String
  severity : SeverityLevel
deriving DecidableEq

/-- Source: timeline entries stored in the `timeline` JSON column:
`{ time: Date, event: string, attachmentUrl?: string, createdBy: string }`. -/
structure TimelineEvent where
  time : Nat
  event : String
  attachmentUrl : Option String
  createdBy : String
deriving DecidableEq

/-- Source: the `incidents` table of `server/schema.ts` (one row). -/
structure Incident where
  id : String
  createdAt : Nat
  updatedAt : Nat
  title : String
  status : IncidentStatus
  visibility : IncidentVisibility
  commitments : Option String
  createdBy : String
  affectedResources : Option (List AffectedResource)
  timeline : Option (List TimelineEvent)
deriving DecidableEq

/-- The authenticated user of the request context; only its `id` is read. -/
structure User where
  id : String
deriving DecidableEq

/-- Error outcomes of a tool call (thrown `Error`s and zod/framework
rejections, by kind). -/
inductive ToolError where
  | Unauthorized
  | InvalidInput
  | NotFound
  | UpstreamGenerationFailed
deriving DecidableEq

/-- Model of a drizzle select builder over the incidents table: a single
optional `config.where` slot. -/
structure SelectQuery where
  whereClause : Option (Incident → Bool)

/-- Source: `db.select().from(incidentsTable)` — a builder with no clause. -/
def selectFromIncidents : SelectQuery := ⟨none⟩

/-- Source: drizzle-orm `SQLiteSelect.where` does `this.config.where = where`:
it assigns the slot, replacing any previously supplied clause. -/
def SelectQuery.withWhere (_q : SelectQuery) (p : Incident → Bool) : SelectQuery :=
  ⟨some p⟩

/-- Running a select: rows of the table (in stored order) satisfying the
where clause, all rows when no clause was set. -/
def SelectQuery.rows (q : SelectQuery) (store : List Incident) : List Incident :=
  match q.whereClause with
  | none => store
  | some p => store.filter p

/-- Source: JS `context.commitments || null` on a `string | undefined` value:
`undefined` and the empty string are falsy and become `null`. -/
def jsStringOrNull (o : Option String) : Option String :=
  match o with
  | some s => if s = "" then none else some s
  | none => none

/-- Source: `SELECT ... ORDER BY created_at DESC` — insert one row into a
list already ordered by `createdAt` descending, keeping stored order on
equal timestamps. -/
def insertByCreatedAtDesc (x : Incident) : List Incident → List Incident
  | [] => [x]
  | y :: ys =>
    if y.createdAt ≤ x.createdAt then x :: y :: ys
    else y :: insertByCreatedAtDesc x ys

/-- The `ORDER BY created_at DESC` of `LIST_INCIDENTS` as a stable sort of
the filtered rows. -/
def sortByCreatedAtDesc : List Incident → List Incident
  | [] => []
  | x :: xs => insertByCreatedAtDesc x (sortByCreatedAtDesc xs)

/-- Input of `CREATE_INCIDENT` before zod defaulting: `title` required,
`status` defaults to INVESTIGATING, `visibility` to private, the rest
optional. -/
structure CreateIncidentInput where
  title : String
  status : Option IncidentStatus
  visibility : Option IncidentVisibility
  commitments : Option String
  affectedResources : Option (List AffectedResource)
  initialEvent : Option String
deriving DecidableEq

/-- Source: `createCreateIncidentTool` (`CREATE_INCIDENT`).  zod rejects an
empty `title` (`min(1)`); `ensureAuthenticated` gates execution; the new row
gets `id = incidentId`, `createdAt = updatedAt = now`, `createdBy = user.id`;
`timeline` is `[{time: now, event: context.initialEvent, createdBy: user.id}]`
when `context.initialEvent` is truthy (a nonempty string) and `[]` otherwise;
`commitments` is `context.commitments || null`; `affectedResources` is
`context.affectedResources || null` (an absent field is stored as NULL, a
supplied array — even `[]`, which is truthy in JS — is stored as given). -/
def createdRecord (user : User) (now : Nat) (incidentId : String)
    (input : CreateIncidentInput) : Incident :=
  { id := incidentId
    createdAt := now
    updatedAt := now
    title := input.title
    status := input.status.getD .INVESTIGATING
    visibility := input.visibility.getD .priv
    commitments := jsStringOrNull input.commitments
    createdBy := user.id
    affectedResources := input.affectedResources
    timeline := some (match input.initialEvent with
      | some e => if e = "" then [] else [⟨now, e, none, user.id⟩]
      | none => []) }

def createIncident (actor : Option User) (now : Nat) (incidentId : String)
    (input : CreateIncidentInput) (store : List Incident) :
    Except ToolError (Incident × List Incident) :=
  if input.title = "" then .error .InvalidInput
  else
    match actor with
    | none => .error .Unauthorized
    | some user =>
      .ok (createdRecord user now incidentId input,
           store ++ [createdRecord user now incidentId input])

/-- Input of `UPDATE_INCIDENT`: `id` required, five optional fields. -/
structure UpdateIncidentInput where
  id : String
  title : Option String
  status : Option IncidentStatus
  visibility : Option IncidentVisibility
  commitments : Option String
  affectedResources : Option (List AffectedResource)
deriving DecidableEq

/-- Source: `createUpdateIncidentTool` (`UPDATE_INCIDENT`).  After the auth
gate it selects the row by id (NotFound when absent), then builds
`updateData` with `updatedAt = new Date()` unconditionally and exactly the
supplied optional fields (`!== undefined` checks), and rewrites the row;
`timeline` is never part of `updateData`. -/
def updatedRecord (old : Incident) (now : Nat)
    (input : UpdateIncidentInput) : Incident :=
  { old with
    updatedAt := now
    title := input.title.getD old.title
    status := input.status.getD old.status
    visibility := input.visibility.getD old.visibility
    commitments :=
      match input.commitments with
      | some s => some s
      | none => old.commitments
    affectedResources :=
      match input.affectedResources with
      | some l => some l
      | none => old.affectedResources }

def updateIncident (actor : Option User) (now : Nat)
    (input : UpdateIncidentInput) (store : List Incident) :
    Except ToolError (Incident × List Incident) :=
  match actor with
  | none => .error .Unauthorized
  | some _ =>
    match store.find? (fun i => i.id == input.id) with
    | none => .error .NotFound
    | some old =>
      .ok (updatedRecord old now input,
           store.map fun i =>
             if i.id == input.id then updatedRecord old now input else i)

/-- Source: `createGetIncidentTool` (`GET_INCIDENT`).  `isAdmin = !!user`
(false when `ensureAuthenticated` throws); the row is selected by id; a
missing row and a private row seen by a non-admin both produce
`{incident: null, success: false}`. -/
def getIncident (actor : Option User) (id : String) (store : List Incident) :
    Option Incident × Bool :=
  match store.find? (fun i => i.id == id) with
  | none => (none, false)
  | some inc =>
    if inc.visibility == .priv && !actor.isSome then (none, false)
    else (some inc, true)

/-- Input of `LIST_INCIDENTS`: optional status and visibility filters,
`limit` (zod `min(1).max(100)`, default 20), `offset` (zod `min(0)`,
default 0). -/
structure ListIncidentsInput where
  status : Option IncidentStatus
  visibility : Option IncidentVisibility
  limit : Nat
  offset : Nat
deriving DecidableEq

/-- First query-building step of `LIST_INCIDENTS`: non-admins get
`where(visibility = public)`; admins get `where(visibility = v)` when a
visibility filter is supplied, and no clause otherwise. -/
def visibilityFiltered (actor : Option User) (input : ListIncidentsInput) :
    SelectQuery :=
  if !actor.isSome then
    selectFromIncidents.withWhere (fun i => i.visibility == .public)
  else
    match input.visibility with
    | some v => selectFromIncidents.withWhere (fun i => i.visibility == v)
    | none => selectFromIncidents

/-- Second query-building step of `LIST_INCIDENTS`: a supplied status filter
issues a second `where(status = s)` on the same builder, which (drizzle
assignment semantics) replaces whatever clause was set before. -/
def effectiveQuery (actor : Option User) (input : ListIncidentsInput) :
    SelectQuery :=
  match input.status with
  | some s => (visibilityFiltered actor input).withWhere (fun i => i.status == s)
  | none => visibilityFiltered actor input

/-- The page returned by `LIST_INCIDENTS`: filtered rows ordered by
`createdAt` descending, then `OFFSET`, then `LIMIT`. -/
def pageFor (actor : Option User) (input : ListIncidentsInput)
    (store : List Incident) : List Incident :=
  ((sortByCreatedAtDesc ((effectiveQuery actor input).rows store)).drop
      input.offset).take input.limit

/-- Source: `createListIncidentsTool` (`LIST_INCIDENTS`).  zod rejects a
limit outside [1, 100]; the result is the page, and
`total = incidents.length` — the length of the page itself (the code's
`TODO: Implement proper total count query`), not a filtered count. -/
def listIncidents (actor : Option User) (input : ListIncidentsInput)
    (store : List Incident) :
    Except ToolError (List Incident × Nat × Bool) :=
  if input.limit < 1 || 100 < input.limit then .error .InvalidInput
  else .ok (pageFor actor input store, (pageFor actor input store).length, true)

/-- Input of `ADD_TIMELINE_EVENT`: `incidentId`, `event` (zod `min(1)`),
optional `attachmentUrl`. -/
structure AddTimelineEventInput where
  incidentId : String
  event : String
  attachmentUrl : Option String
deriving DecidableEq

/-- Source: `createAddTimelineEventTool` (`ADD_TIMELINE_EVENT`).  zod rejects
an empty `event` (its only length constraint); after the auth gate the row
is selected (NotFound when absent); `currentTimeline = (timeline as any) || []`;
one entry `{time: new Date(), event, attachmentUrl, createdBy: user.id}` is
appended at the end, and the row is rewritten with the new timeline and
`updatedAt = new Date()`. -/
def appendedRecord (inc : Incident) (now : Nat)
    (input : AddTimelineEventInput) (user : User) : Incident :=
  { inc with
    timeline := some (inc.timeline.getD []
      ++ [⟨now, input.event, input.attachmentUrl, user.id⟩])
    updatedAt := now }

def addTimelineEvent (actor : Option User) (now : Nat)
    (input : AddTimelineEventInput) (store : List Incident) :
    Except ToolError (Incident × List Incident) :=
  if input.event = "" then .error .InvalidInput
  else
    match actor with
    | none => .error .Unauthorized
    | some user =>
      match store.find? (fun i => i.id == input.incidentId) with
      | none => .error .NotFound
      | some inc =>
        .ok (appendedRecord inc now input user,
             store.map fun i =>
               if i.id == input.incidentId then appendedRecord inc now input user
               else i)

/-- One timeline entry of the structured-output contract sent to the AI
collaborator (`timeline: [{event}]`). -/
structure DraftTimelineItem where
  event : String
deriving DecidableEq

/-- The draft payload of `AI_GENERATE_INCIDENT`'s output contract:
`{title, status, affectedResources[], timeline[{event}], commitments?}`. -/
structure DraftIncident where
  title : String
  status : IncidentStatus
  affectedResources : List AffectedResource
  timeline : List DraftTimelineItem
  commitments : Option String
deriving DecidableEq

/-- Source: `createAIGenerateIncidentTool` (`AI_GENERATE_INCIDENT`).  zod
rejects an empty `description`; after the auth gate the collaborator is
called (`aiResult` parameter: `.error ()` is a thrown collaborator error,
`.ok none` a response with no `object`, `.ok (some d)` a produced draft);
both failure paths end in the catch block's thrown error (modelled
`UpstreamGenerationFailed`), and a produced draft is returned as
`result.object as any` with no further field validation. -/
def aiGenerateIncident (actor : Option User) (description : String)
    (aiResult : Except Unit (Option DraftIncident)) :
    Except ToolError (DraftIncident × Bool) :=
  if description = "" then .error .InvalidInput
  else
    match actor with
    | none => .error .Unauthorized
    | some _ =>
      match aiResult with
      | .error _ => .error .UpstreamGenerationFailed
      | .ok none => .error .UpstreamGenerationFailed
      | .ok (some draft) => .ok (draft, true)

/-- Sequential driver for repeated `ADD_TIMELINE_EVENT` calls: runs the tool
once per `(time, text)` pair, threading the store, stopping at the first
error. -/
def appendRun (u : User) (id : String) (events : List (Nat × String))
    (store : List Incident) : Except ToolError (List Incident) :=
  match events with
  | [] => .ok store
  | (t, e) :: rest =>
    match addTimelineEvent (some u) t ⟨id, e, none⟩ store with
    | .error err => .error err
    | .ok (_, store1) => appendRun u id rest store1

/-- The timeline of the incident `id` after a run, `none` when the run
failed or the incident is absent or its timeline column is NULL. -/
def timelineAfter (r : Except ToolError (List Incident)) (id : String) :
    Option (List TimelineEvent) :=
  match r with
  | .error _ => none
  | .ok store =>
    match store.find? (fun i => i.id == id) with
    | none => none
    | some inc => inc.timeline

/-! Concrete fixtures used to evaluate the embedded tools. -/

/-- A concrete authenticated user. -/
def u0 : User := ⟨"u0"⟩

/-- A public incident with the given id and creation time. -/
def pubInc (id : String) (t : Nat) : Incident :=
  ⟨id, t, t, "t", .INVESTIGATING, .public, none, "u0", none, some []⟩

def inc1 : Incident := pubInc "i1" 1

def inc2 : Incident := pubInc "i2" 2

def inc3 : Incident := pubInc "i3" 3

def inc4 : Incident := pubInc "i4" 4

def inc5 : Incident := pubInc "i5" 5

/-- Five public incidents with distinct creation times, in insertion order. -/
def store5 : List Incident := [inc1, inc2, inc3, inc4, inc5]

/-- A private incident with status INVESTIGATING. -/
def incPriv : Incident :=
  ⟨"p", 1, 1, "t", .INVESTIGATING, .priv, none, "u0", none, some []⟩

/-- Two public incidents sharing `createdAt = 5`; `incB5` was inserted
before `incA5` although its id is larger. -/
def incA5 : Incident := pubInc "a" 5

def incB5 : Incident := pubInc "b" 5

/-- A 601-character event text, one character over the UI cap. -/
def evLong : String := String.mk (List.replicate 601 'a')

/-- The row produced by appending `evLong` to `inc1` at time 7. -/
def upd601 : Incident :=
  { inc1 with timeline := some [⟨7, evLong, none, "u0"⟩], updatedAt := 7 }

/-- A collaborator draft whose title is the empty string. -/
def draftEmptyTitle : DraftIncident := ⟨"", .INVESTIGATING, [], [], none⟩

/-! Theorems settling the claims. -/

/-- C1: the claim states that a successful `ListIncidents` returns a `total`
equal to the full filtered count independent of `limit`/`offset` (with 5
matching incidents and limit 1, total 5).  The code computes
`total = incidents.length` on the already-paginated rows: on a store of 5
matching (public) incidents with `limit = 1, offset = 0` it returns
`total = 1`, while the filtered count is 5. -/
theorem C1_total_is_page_length :
    listIncidents none ⟨none, none, 1, 0⟩ store5 = .ok ([inc5], 1, true)
    ∧ (store5.filter fun i => i.visibility == .public).length = 5 :=
  ⟨rfl, rfl⟩

/-- C3: the claim states that for an unauthenticated caller every listed
incident is public, for every combination of status and visibility filters.
The code sets `where(visibility = public)` for non-admins but then, when a
status filter is supplied, issues a second `where(status = s)` on the same
drizzle builder, which replaces the visibility clause: an unauthenticated
call with `status = INVESTIGATING` on a store holding one private
INVESTIGATING incident returns that private incident (while the same call
without the status filter correctly returns nothing). -/
theorem C3_status_filter_drops_visibility_guard :
    listIncidents none ⟨some .INVESTIGATING, none, 20, 0⟩ [incPriv] =
      .ok ([incPriv], 1, true)
    ∧ incPriv.visibility = .priv
    ∧ listIncidents none ⟨none, none, 20, 0⟩ [incPriv] = .ok ([], 0, true) :=
  ⟨rfl, rfl, rfl⟩

set_option maxRecDepth 4000 in
/-- C6 counterexample: the claim states that `AppendTimelineEvent` fails
with `InvalidInput` whenever the event text exceeds 600 characters.  The
server tool's only length constraint is zod `min(1)`: a 601-character event
is accepted and appended (the 600 cap lives in the admin UI form, which
truncates instead of rejecting). -/
theorem C6_counterexample_601_chars_accepted :
    addTimelineEvent (some u0) 7 ⟨"i1", evLong, none⟩ [inc1] =
      .ok (upd601, [upd601])
    ∧ evLong.length = 601 :=
  ⟨rfl, rfl⟩

/-- C7 counterexample: the claim states that `GenerateIncidentDraft` never
returns a draft whose title is empty, re-validating the collaborator's
payload (non-empty title) before returning it.  The code returns
`result.object` as-is after only checking that an object exists: a
collaborator draft with `title = ""` is returned unchanged with success. -/
theorem C7_counterexample_empty_title_returned :
    aiGenerateIncident (some u0) "d" (.ok (some draftEmptyTitle)) =
      .ok (draftEmptyTitle, true)
    ∧ draftEmptyTitle.title = "" :=
  ⟨rfl, rfl⟩

/-- C8 counterexample: the claim states that `affectedResources` and
`timeline` are stored as empty sequences (never null) when absent, and that
a supplied initial event text always yields a one-entry timeline.  The code
stores `context.affectedResources || null`, i.e. NULL (`none`) when the
field is absent; and `context.initialEvent ? [...] : []` treats a supplied
empty string as falsy, yielding an empty timeline. -/
theorem C8_counterexample_null_resources :
    (createIncident (some u0) 3 "n1" ⟨"t", none, none, none, none, none⟩
        []).map (fun r => r.1.affectedResources) = .ok none
    ∧ (createIncident (some u0) 3 "n2" ⟨"t", none, none, none, none, some ""⟩
        []).map (fun r => r.1.timeline) = .ok (some []) :=
  ⟨rfl, rfl⟩

/-- C9 counterexample: the claim states that items with equal `createdAt`
are ordered by id ascending.  The code orders by `createdAt` descending
only (no id tie-break): on a store holding two public incidents with equal
`createdAt` where the larger id was inserted first, the listing returns the
larger id first. -/
theorem C9_counterexample_no_id_tiebreak :
    listIncidents none ⟨none, none, 20, 0⟩ [incB5, incA5] =
      .ok ([incB5, incA5], 2, true)
    ∧ incB5.createdAt = incA5.createdAt
    ∧ incA5.id.data = ['a'] ∧ incB5.id.data = ['b'] ∧ 'a' < 'b' :=
  ⟨rfl, rfl, rfl, rfl, by decide⟩

theorem mem_insertByCreatedAtDesc {x z : Incident} {l : List Incident}
    (h : z ∈ insertByCreatedAtDesc x l) : z = x ∨ z ∈ l := by
  induction l with
  | nil => simpa [insertByCreatedAtDesc] using h
  | cons y ys ih =>
    unfold insertByCreatedAtDesc at h
    by_cases hc : y.createdAt ≤ x.createdAt
    · rw [if_pos hc] at h
      simp only [List.mem_cons] at h
      rcases h with h | h | h
      · exact .inl h
      · exact .inr (List.mem_cons.mpr (.inl h))
      · exact .inr (List.mem_cons.mpr (.inr h))
    · rw [if_neg hc] at h
      simp only [List.mem_cons] at h
      rcases h with h | h
      · exact .inr (List.mem_cons.mpr (.inl h))
      · rcases ih h with h2 | h2
        · exact .inl h2
        · exact .inr (List.mem_cons.mpr (.inr h2))

theorem pairwise_insertByCreatedAtDesc (x : Incident) (l : List Incident)
    (hl : l.Pairwise fun a b => b.createdAt ≤ a.createdAt) :
    (insertByCreatedAtDesc x l).Pairwise fun a b => b.createdAt ≤ a.createdAt := by
  induction l with
  | nil => simp [insertByCreatedAtDesc]
  | cons y ys ih =>
    rcases List.pairwise_cons.mp hl with ⟨hy, hys⟩
    unfold insertByCreatedAtDesc
    by_cases hc : y.createdAt ≤ x.createdAt
    · rw [if_pos hc]
      refine List.pairwise_cons.mpr ⟨?_, hl⟩
      intro z hz
      rcases List.mem_cons.mp hz with h | h
      · exact h ▸ hc
      · exact le_trans (hy z h) hc
    · rw [if_neg hc]
      refine List.pairwise_cons.mpr ⟨?_, ih hys⟩
      intro z hz
      rcases mem_insertByCreatedAtDesc hz with h | h
      · exact h ▸ Nat.le_of_lt (Nat.lt_of_not_le hc)
      · exact hy z h

theorem pairwise_sortByCreatedAtDesc (l : List Incident) :
    (sortByCreatedAtDesc l).Pairwise fun a b => b.createdAt ≤ a.createdAt := by
  induction l with
  | nil => simp [sortByCreatedAtDesc]
  | cons x xs ih => exact pairwise_insertByCreatedAtDesc x _ ih

theorem find?_map_replace (store : List Incident) (id : String) (upd : Incident)
    (hupd : upd.id = id)
    (h : (store.find? fun i => i.id == id).isSome = true) :
    ((store.map fun i => if i.id == id then upd else i).find?
      fun i => i.id == id) = some upd := by
  induction store with
  | nil => simp at h
  | cons y ys ih =>
    by_cases hy : y.id = id
    · have h1 : ((y :: ys).map fun i => if i.id == id then upd else i)
          = upd :: (ys.map fun i => if i.id == id then upd else i) := by
        rw [List.map_cons, if_pos (by simp [hy])]
      rw [h1, List.find?_cons_of_pos _ (by simp [hupd])]
    · have h1 : ((y :: ys).map fun i => if i.id == id then upd else i)
          = y :: (ys.map fun i => if i.id == id then upd else i) := by
        rw [List.map_cons, if_neg (by simp [hy])]
      rw [List.find?_cons_of_neg _ (by simp [hy])] at h
      rw [h1, List.find?_cons_of_neg _ (by simp [hy])]
      exact ih h

theorem getIncident_unauth_private_none (store : List Incident) (id : String)
    (h : ∀ inc, (store.find? fun i => i.id == id) = some inc →
      inc.visibility = .priv) :
    getIncident none id store = (none, false) := by
  unfold getIncident
  cases hf : store.find? fun i => i.id == id with
  | none => rfl
  | some inc => simp [h inc hf]

theorem getIncident_unauth_success_public (store : List Incident) (id : String)
    (inc : Incident) (h : getIncident none id store = (some inc, true)) :
    (store.find? fun i => i.id == id) = some inc
    ∧ inc.visibility = .public := by
  unfold getIncident at h
  cases hf : store.find? fun i => i.id == id with
  | none => rw [hf] at h; simp at h
  | some inc0 =>
    rw [hf] at h
    dsimp only at h
    cases hv : inc0.visibility with
    | priv => rw [hv] at h; simp at h
    | public =>
      rw [hv] at h
      have hred : ((some inc0 : Option Incident), true)
          = ((some inc : Option Incident), true) := h
      have heq : inc0 = inc := by
        have := congrArg Prod.fst hred
        simpa using this
      subst heq
      exact ⟨rfl, hv⟩

/-- C2: for a caller lacking administrator capability (in this code, an
unauthenticated one), `GetIncident` on a nonexistent id and on a private
incident both return exactly `(incident null, success false)` — the same
observable result — and whenever it returns success the incident exists in
the store and is public. -/
theorem C2_private_indistinguishable_from_missing
    (store : List Incident) (id1 id2 : String)
    (h1 : (store.find? fun i => i.id == id1) = none)
    (h2 : ∀ inc, (store.find? fun i => i.id == id2) = some inc →
      inc.visibility = .priv) :
    getIncident none id1 store = getIncident none id2 store
    ∧ getIncident none id1 store = (none, false)
    ∧ ∀ id inc, getIncident none id store = (some inc, true) →
        (store.find? fun i => i.id == id) = some inc
        ∧ inc.visibility = .public := by
  have e1 : getIncident none id1 store = (none, false) :=
    getIncident_unauth_private_none store id1
      (fun inc hinc => by rw [h1] at hinc; cases hinc)
  have e2 : getIncident none id2 store = (none, false) :=
    getIncident_unauth_private_none store id2 h2
  exact ⟨e1.trans e2.symm, e1,
    fun id inc h => getIncident_unauth_success_public store id inc h⟩

/-- C2 witness: on a store holding one private incident, looking up a
missing id returns `(null, false)`. -/
theorem C2_witness : getIncident none "x" [incPriv] = (none, false) := by
  have h2 : ∀ inc, ([incPriv].find? fun i => i.id == "p") = some inc →
      inc.visibility = .priv := by
    intro inc h
    have h0 : some incPriv = some inc := h
    cases h0
    rfl
  exact (C2_private_indistinguishable_from_missing [incPriv] "x" "p" rfl h2).2.1

/-- C4: on an accepted `UpdateIncident` of an existing incident, exactly the
supplied optional fields take the supplied values, absent fields keep their
prior value, the timeline (and id, createdAt, createdBy) are untouched, and
`updatedAt` is set to `now` unconditionally. -/
theorem C4_partial_update_frame (u : User) (now : Nat)
    (input : UpdateIncidentInput) (store : List Incident) (old : Incident)
    (hfind : (store.find? fun i => i.id == input.id) = some old) :
    updateIncident (some u) now input store =
      .ok (updatedRecord old now input,
           store.map fun i =>
             if i.id == input.id then updatedRecord old now input else i)
    ∧ (updatedRecord old now input).updatedAt = now
    ∧ (updatedRecord old now input).title = input.title.getD old.title
    ∧ (updatedRecord old now input).status = input.status.getD old.status
    ∧ (updatedRecord old now input).visibility
        = input.visibility.getD old.visibility
    ∧ (updatedRecord old now input).commitments
        = (match input.commitments with
           | some s => some s
           | none => old.commitments)
    ∧ (updatedRecord old now input).affectedResources
        = (match input.affectedResources with
           | some l => some l
           | none => old.affectedResources)
    ∧ (updatedRecord old now input).timeline = old.timeline
    ∧ (updatedRecord old now input).id = old.id
    ∧ (updatedRecord old now input).createdAt = old.createdAt
    ∧ (updatedRecord old now input).createdBy = old.createdBy := by
  refine ⟨?_, rfl, rfl, rfl, rfl, rfl, rfl, rfl, rfl, rfl, rfl⟩
  unfold updateIncident
  rw [hfind]

/-- C4 witness: updating only the status of a stored incident yields the
expected record and rewritten store. -/
theorem C4_witness :
    updateIncident (some u0) 9 ⟨"i1", none, some .RESOLVED, none, none, none⟩
        [inc1] =
      .ok (updatedRecord inc1 9 ⟨"i1", none, some .RESOLVED, none, none, none⟩,
           [updatedRecord inc1 9 ⟨"i1", none, some .RESOLVED, none, none, none⟩]) :=
  (C4_partial_update_frame u0 9 ⟨"i1", none, some .RESOLVED, none, none, none⟩
    [inc1] inc1 rfl).1

/-- C9 (amended): the items of every accepted `ListIncidents` call are
ordered by `createdAt` descending; no tie-break on id is applied, so equal
timestamps keep the stored order. -/
theorem C9_items_sorted_by_createdAt_desc (actor : Option User)
    (input : ListIncidentsInput) (store : List Incident)
    (items : List Incident) (total : Nat) (ok : Bool)
    (h : listIncidents actor input store = .ok (items, total, ok)) :
    items.Pairwise fun a b => b.createdAt ≤ a.createdAt := by
  unfold listIncidents at h
  by_cases hl : (input.limit < 1 || 100 < input.limit) = true
  · rw [if_pos hl] at h
    simp at h
  · rw [if_neg hl] at h
    simp only [Except.ok.injEq, Prod.mk.injEq] at h
    rcases h with ⟨h1, -, -⟩
    subst h1
    have hs := pairwise_sortByCreatedAtDesc ((effectiveQuery actor input).rows store)
    exact hs.sublist ((List.take_sublist _ _).trans (List.drop_sublist _ _))

/-- C9 witness: the page returned on the two equal-timestamp incidents is
sorted by `createdAt` descending. -/
theorem C9_witness :
    ([incB5, incA5] : List Incident).Pairwise
      (fun a b => b.createdAt ≤ a.createdAt) :=
  C9_items_sorted_by_createdAt_desc none ⟨none, none, 20, 0⟩ [incB5, incA5]
    [incB5, incA5] 2 true rfl

theorem appendRun_timeline (u : User) (id : String)
    (events : List (Nat × String)) :
    ∀ (store : List Incident) (inc : Incident) (acc : List TimelineEvent),
    (store.find? fun i => i.id == id) = some inc →
    inc.timeline = some acc →
    (∀ p ∈ events, p.2 ≠ "") →
    timelineAfter (appendRun u id events store) id =
      some (acc ++ events.map fun p =>
        (⟨p.1, p.2, none, u.id⟩ : TimelineEvent)) := by
  induction events with
  | nil =>
    intro store inc acc hfind htl _
    simp [appendRun, timelineAfter, hfind, htl]
  | cons p rest ih =>
    intro store inc acc hfind htl hne
    obtain ⟨t, e⟩ := p
    have he : e ≠ "" := hne (t, e) (by simp)
    unfold appendRun addTimelineEvent
    rw [if_neg he, hfind]
    dsimp only
    have hbeq : (inc.id == id) = true := by
      have h3 := List.find?_some hfind
      simpa using h3
    have hinc : inc.id = id := eq_of_beq hbeq
    have hfind1 := find?_map_replace store id
      (appendedRecord inc t ⟨id, e, none⟩ u) hinc (by rw [hfind]; rfl)
    have htl1 : (appendedRecord inc t ⟨id, e, none⟩ u).timeline
        = some (acc ++ [⟨t, e, none, u.id⟩]) := by
      simp [appendedRecord, htl]
    have hrec := ih
      (store.map fun i =>
        if i.id == id then appendedRecord inc t ⟨id, e, none⟩ u else i)
      (appendedRecord inc t ⟨id, e, none⟩ u) (acc ++ [⟨t, e, none, u.id⟩])
      hfind1 htl1 (fun q hq => hne q (by simp [hq]))
    rw [hrec]
    simp

/-- C5: an accepted `AppendTimelineEvent` on an existing incident appends
exactly one entry `{time: now, event, attachmentUrl, createdBy: actor.id}`
at the end of the existing timeline, changes only `timeline` and
`updatedAt` (set to now), and N sequential accepted appends starting from
an empty timeline produce exactly the N appended entries in call order, so
the entry times are non-decreasing whenever the call times are. -/
theorem C5_appends_preserve_history (u : User) :
    (∀ (now : Nat) (input : AddTimelineEventInput) (store : List Incident)
        (inc : Incident),
      input.event ≠ "" →
      (store.find? fun i => i.id == input.incidentId) = some inc →
      addTimelineEvent (some u) now input store =
        .ok (appendedRecord inc now input u,
             store.map fun i =>
               if i.id == input.incidentId then appendedRecord inc now input u
               else i)
      ∧ (appendedRecord inc now input u).timeline
          = some (inc.timeline.getD []
              ++ [⟨now, input.event, input.attachmentUrl, u.id⟩])
      ∧ (appendedRecord inc now input u).updatedAt = now
      ∧ (appendedRecord inc now input u).id = inc.id
      ∧ (appendedRecord inc now input u).createdAt = inc.createdAt
      ∧ (appendedRecord inc now input u).title = inc.title
      ∧ (appendedRecord inc now input u).status = inc.status
      ∧ (appendedRecord inc now input u).visibility = inc.visibility
      ∧ (appendedRecord inc now input u).createdBy = inc.createdBy)
    ∧ (∀ (id : String) (events : List (Nat × String)) (store : List Incident)
        (inc : Incident),
      (store.find? fun i => i.id == id) = some inc →
      inc.timeline = some [] →
      (∀ p ∈ events, p.2 ≠ "") →
      timelineAfter (appendRun u id events store) id =
        some (events.map fun p => (⟨p.1, p.2, none, u.id⟩ : TimelineEvent))
      ∧ (timelineAfter (appendRun u id events store) id).map List.length
          = some events.length
      ∧ ((events.map Prod.fst).Chain' (· ≤ ·) →
          ((events.map fun p =>
            (⟨p.1, p.2, none, u.id⟩ : TimelineEvent)).map
              TimelineEvent.time).Chain' (· ≤ ·))) := by
  constructor
  · intro now input store inc he hfind
    refine ⟨?_, rfl, rfl, rfl, rfl, rfl, rfl, rfl, rfl⟩
    unfold addTimelineEvent
    rw [if_neg he, hfind]
  · intro id events store inc hfind htl hne
    have h0 := appendRun_timeline u id events store inc [] hfind htl hne
    rw [List.nil_append] at h0
    refine ⟨h0, ?_, ?_⟩
    · rw [h0]
      simp
    · intro hmono
      rw [List.map_map]
      exact hmono

/-- C5 witness: one accepted append on a one-incident store produces the
appended record and rewritten store. -/
theorem C5_witness :
    addTimelineEvent (some u0) 9 ⟨"i1", "e2", none⟩ [inc1] =
      .ok (appendedRecord inc1 9 ⟨"i1", "e2", none⟩ u0,
           [appendedRecord inc1 9 ⟨"i1", "e2", none⟩ u0]) :=
  ((C5_appends_preserve_history u0).1 9 ⟨"i1", "e2", none⟩ [inc1] inc1
    (by decide) rfl).1

/-- C6 (amended): `AppendTimelineEvent` fails with `InvalidInput` (before
touching the store) exactly when the event text is empty; the tool imposes
no maximum length, so no nonempty event text — of any length — is rejected
as `InvalidInput` (the 600-character cap exists only in the admin UI, which
truncates input instead of rejecting it). -/
theorem C6_only_empty_event_rejected (actor : Option User) (now : Nat)
    (input : AddTimelineEventInput) (store : List Incident) :
    (input.event = "" →
      addTimelineEvent actor now input store = .error .InvalidInput)
    ∧ (input.event ≠ "" →
      addTimelineEvent actor now input store ≠ .error .InvalidInput) := by
  constructor
  · intro h
    unfold addTimelineEvent
    rw [if_pos h]
  · intro h
    unfold addTimelineEvent
    rw [if_neg h]
    cases actor with
    | none =>
      intro hcon
      injection hcon with h2
      exact ToolError.noConfusion h2
    | some u =>
      cases hf : store.find? fun i => i.id == input.incidentId with
      | none =>
        intro hcon
        injection hcon with h2
        exact ToolError.noConfusion h2
      | some inc =>
        intro hcon
        exact Except.noConfusion hcon

/-- C6 witness: the empty event text is rejected with `InvalidInput`. -/
theorem C6_witness :
    addTimelineEvent none 0 ⟨"x", "", none⟩ [] = .error .InvalidInput :=
  (C6_only_empty_event_rejected none 0 ⟨"x", "", none⟩ []).1 rfl

/-- C7 (amended): `GenerateIncidentDraft` fails with
`UpstreamGenerationFailed` exactly when the collaborator errors or returns
no object; a returned draft object is passed through without any field
re-validation (in particular a draft with an empty title is returned
as-is). -/
theorem C7_draft_passthrough (actor : Option User) (description : String)
    (aiResult : Except Unit (Option DraftIncident)) (hd : description ≠ "") :
    (actor = none →
      aiGenerateIncident actor description aiResult = .error .Unauthorized)
    ∧ (∀ u, actor = some u →
        (aiResult = .error () →
          aiGenerateIncident actor description aiResult
            = .error .UpstreamGenerationFailed)
        ∧ (aiResult = .ok none →
          aiGenerateIncident actor description aiResult
            = .error .UpstreamGenerationFailed)
        ∧ ∀ d, aiResult = .ok (some d) →
          aiGenerateIncident actor description aiResult = .ok (d, true)) := by
  unfold aiGenerateIncident
  rw [if_neg hd]
  constructor
  · intro h
    rw [h]
  · intro u h
    subst h
    refine ⟨?_, ?_, ?_⟩
    · intro h2
      rw [h2]
    · intro h2
      rw [h2]
    · intro d h2
      rw [h2]

/-- C7 witness: a collaborator error surfaces as
`UpstreamGenerationFailed`. -/
theorem C7_witness :
    aiGenerateIncident (some u0) "d2" (.error ())
      = .error .UpstreamGenerationFailed :=
  ((C7_draft_passthrough (some u0) "d2" (.error ()) (by decide)).2 u0 rfl).1 rfl

/-- C8 (amended): an accepted `CreateIncident` appends one row with
`id = incidentId`, `createdAt = updatedAt = now`, `createdBy = actor.id`,
status defaulting to INVESTIGATING and visibility to private when omitted;
`timeline` is always stored as an array — the single entry
`{time: now, event, createdBy: actor.id}` when a nonempty initial event
text is supplied, empty otherwise (a supplied empty string counts as
falsy) — while `affectedResources` is stored exactly as supplied and is
NULL, not an empty sequence, when absent. -/
theorem C8_created_fields (u : User) (now : Nat) (incidentId : String)
    (input : CreateIncidentInput) (store : List Incident)
    (h : input.title ≠ "") :
    createIncident (some u) now incidentId input store =
      .ok (createdRecord u now incidentId input,
           store ++ [createdRecord u now incidentId input])
    ∧ (createdRecord u now incidentId input).id = incidentId
    ∧ (createdRecord u now incidentId input).createdAt = now
    ∧ (createdRecord u now incidentId input).updatedAt = now
    ∧ (createdRecord u now incidentId input).createdBy = u.id
    ∧ (createdRecord u now incidentId input).title = input.title
    ∧ (createdRecord u now incidentId input).status
        = input.status.getD .INVESTIGATING
    ∧ (createdRecord u now incidentId input).visibility
        = input.visibility.getD .priv
    ∧ (createdRecord u now incidentId input).timeline
        = some (match input.initialEvent with
          | some e => if e = "" then [] else [⟨now, e, none, u.id⟩]
          | none => [])
    ∧ (createdRecord u now incidentId input).affectedResources
        = input.affectedResources := by
  refine ⟨?_, rfl, rfl, rfl, rfl, rfl, rfl, rfl, rfl, rfl⟩
  unfold createIncident
  rw [if_neg h]

/-- C8 witness: creating with all optional fields absent stores the
defaulted record. -/
theorem C8_witness :
    createIncident (some u0) 3 "n3" ⟨"t", none, none, none, none, none⟩ [] =
      .ok (createdRecord u0 3 "n3" ⟨"t", none, none, none, none, none⟩,
           [createdRecord u0 3 "n3" ⟨"t", none, none, none, none, none⟩]) :=
  (C8_created_fields u0 3 "n3" ⟨"t", none, none, none, none, none⟩ []
    (by decide)).1

/-- C10: the administrator check of every operation is mere authentication:
an authenticated caller reads any incident by id (private included), lists
the whole store with no visibility restriction, and passes the capability
gate of every mutating operation, while an unauthenticated caller is
rejected with Unauthorized by every private tool and only ever reads public
incidents. -/
theorem C10_admin_iff_authenticated (u : User) (store : List Incident)
    (id : String) (now : Nat) (incidentId : String)
    (cin : CreateIncidentInput) (uin : UpdateIncidentInput)
    (ain : AddTimelineEventInput) (lin : ListIncidentsInput)
    (dsc : String) (r : Except Unit (Option DraftIncident))
    (hct : cin.title ≠ "") (hae : ain.event ≠ "") (hd : dsc ≠ "")
    (hvis : lin.visibility = none) (hst : lin.status = none)
    (hlim : ¬((lin.limit < 1 || 100 < lin.limit) = true)) :
    getIncident (some u) id store =
      ((store.find? fun i => i.id == id),
       (store.find? fun i => i.id == id).isSome)
    ∧ listIncidents (some u) lin store =
        .ok (((sortByCreatedAtDesc store).drop lin.offset).take lin.limit,
             (((sortByCreatedAtDesc store).drop lin.offset).take
               lin.limit).length,
             true)
    ∧ createIncident (some u) now incidentId cin store ≠ .error .Unauthorized
    ∧ createIncident none now incidentId cin store = .error .Unauthorized
    ∧ updateIncident (some u) now uin store ≠ .error .Unauthorized
    ∧ updateIncident none now uin store = .error .Unauthorized
    ∧ addTimelineEvent (some u) now ain store ≠ .error .Unauthorized
    ∧ addTimelineEvent none now ain store = .error .Unauthorized
    ∧ aiGenerateIncident (some u) dsc r ≠ .error .Unauthorized
    ∧ aiGenerateIncident none dsc r = .error .Unauthorized
    ∧ (∀ inc, getIncident none id store = (some inc, true) →
        inc.visibility = .public) := by
  have hq : effectiveQuery (some u) lin = selectFromIncidents := by
    have hv1 : visibilityFiltered (some u) lin = selectFromIncidents := by
      simp [visibilityFiltered, hvis]
    simp [effectiveQuery, hst, hv1]
  refine ⟨?_, ?_, ?_, ?_, ?_, ?_, ?_, ?_, ?_, ?_, ?_⟩
  · unfold getIncident
    cases hf : store.find? fun i => i.id == id with
    | none => rfl
    | some inc => simp
  · unfold listIncidents
    rw [if_neg hlim]
    unfold pageFor
    rw [hq]
    rfl
  · unfold createIncident
    rw [if_neg hct]
    intro hcon
    exact Except.noConfusion hcon
  · unfold createIncident
    rw [if_neg hct]
  · unfold updateIncident
    cases hf : store.find? fun i => i.id == uin.id with
    | none =>
      intro hcon
      injection hcon with h2
      exact ToolError.noConfusion h2
    | some old =>
      intro hcon
      exact Except.noConfusion hcon
  · rfl
  · unfold addTimelineEvent
    rw [if_neg hae]
    cases hf : store.find? fun i => i.id == ain.incidentId with
    | none =>
      intro hcon
      injection hcon with h2
      exact ToolError.noConfusion h2
    | some inc =>
      intro hcon
      exact Except.noConfusion hcon
  · unfold addTimelineEvent
    rw [if_neg hae]
  · unfold aiGenerateIncident
    rw [if_neg hd]
    cases r with
    | error e =>
      intro hcon
      injection hcon with h2
      exact ToolError.noConfusion h2
    | ok o =>
      cases o with
      | none =>
        intro hcon
        injection hcon with h2
        exact ToolError.noConfusion h2
      | some d =>
        intro hcon
        exact Except.noConfusion hcon
  · unfold aiGenerateIncident
    rw [if_neg hd]
  · intro inc h
    exact (getIncident_unauth_success_public store id inc h).2

/-- C10 witness: an unauthenticated create is rejected with Unauthorized. -/
theorem C10_witness :
    createIncident none 7 "n4" ⟨"t", none, none, none, none, none⟩ [] =
      .error .Unauthorized :=
  (C10_admin_iff_authenticated u0 [] "x" 7 "n4"
    ⟨"t", none, none, none, none, none⟩ ⟨"x", none, none, none, none, none⟩
    ⟨"x", "e", none⟩ ⟨none, none, 20, 0⟩ "d" (.error ())
    (by decide) (by decide) (by decide) rfl rfl (by decide)).2.2.2.1

end Incidents
